import Mathlib

/-!
Shallow embedding of the capture tool in src/canopusImgCap/imgcap.py.

External effects are abstracted by a World record: an oracle giving the
outcome of each spawned command line, an oracle for the device probe run
inside validate_device, the filesystem predicates used by validate_device,
the temporary raw path allocated by NamedTemporaryFile, and a flag saying
whether os.unlink raises OSError in the cleanup block.
-/

namespace CanopusImgCap

/-- Outcome of one subprocess.run call with check=True and capture_output=True:
exit status zero, CalledProcessError on a non-zero exit, or FileNotFoundError
when the executable is missing. -/
inductive SpawnOutcome where
  | ok (stdout stderr : String)
  | calledProcessError (returncode : Int) (stderr : String)
  | exeNotFound
deriving DecidableEq, Repr

/-- Outcome of the probe subprocess.run call inside validate_device, which also
passes timeout=5 and so may raise TimeoutExpired. -/
inductive ProbeOutcome where
  | ok (stdout stderr : String)
  | calledProcessError (returncode : Int) (stderr : String)
  | timeoutExpired
  | exeNotFound
deriving DecidableEq, Repr

/-- Abstraction of the environment a run of the program interacts with. -/
structure World where
  exec : List String → SpawnOutcome
  probe : String → ProbeOutcome
  path_exists : String → Bool
  access_R_OK : String → Bool
  tempRawPath : String
  unlinkRaises : Bool

/-- ImageCapture.run_command: runs the command and returns True exactly when
the process completed with exit status zero; CalledProcessError and
FileNotFoundError are caught and turned into a False return. -/
def run_command (outcome : SpawnOutcome) : Bool :=
  match outcome with
  | .ok _ _ => true
  | .calledProcessError _ _ => false
  | .exeNotFound => false

/-- ASCII lowercase map modelling the Python str.lower call. -/
def str_lower (s : String) : String := String.mk (s.data.map Char.toLower)

/-- Python str.endswith: the suffix character sequence is a suffix of the
character sequence of the string. -/
def str_endswith (s suffix : String) : Bool := decide (suffix.data <:+ s.data)

/-- Python substring membership, used to state that an error message lists
the valid preset names. -/
def str_contains (s t : String) : Bool := decide (t.data <:+: s.data)

/-- size_map from ImageCapture.get_resolution. -/
def size_map : List (String × Nat × Nat) :=
  [("small", 640, 480), ("large", 1920, 1080)]

/-- Message of the ValueError raised by get_resolution, with the Python list
repr of size_map.keys() spelled out. -/
def invalid_size_message : String :=
  "Invalid size format. Use one of [\x27small\x27, \x27large\x27]  (e.g., 640x480)"

/-- ImageCapture.get_resolution: looks up the lowercased size argument in
size_map and raises ValueError when it is not a key. -/
def get_resolution (size_arg : String) : Except String (Nat × Nat) :=
  match size_map.lookup (str_lower size_arg) with
  | some wh => Except.ok wh
  | none => Except.error invalid_size_message

/-- Exceptional or normal outcome of ImageCapture.validate_device. -/
inductive ValidateOutcome where
  | fileNotFoundError (msg : String)
  | permissionError (msg : String)
  | calledProcessError (returncode : Int) (stderr : String)
  | runtimeError (msg : String)
  | ok
deriving DecidableEq, Repr

/-- Result of validate_device together with whether the probe process was
actually spawned on that path. -/
structure ValidateResult where
  outcome : ValidateOutcome
  probeSpawned : Bool
deriving DecidableEq, Repr

/-- Command line of the probe run inside validate_device. -/
def probe_cmd (device_path : String) : List String :=
  ["v4l2-ctl", "--device", device_path, "--list-formats"]

/-- ImageCapture.validate_device: os.path.exists check, then os.access with
R_OK, then the v4l2-ctl list-formats probe. CalledProcessError from the probe
propagates uncaught; TimeoutExpired and a missing v4l2-ctl become
RuntimeError. -/
def validate_device (w : World) (device_path : String) : ValidateResult :=
  if w.path_exists device_path = false then
    { outcome := .fileNotFoundError ("Video device " ++ device_path ++ " not found"),
      probeSpawned := false }
  else if w.access_R_OK device_path = false then
    { outcome := .permissionError ("No read permission for device " ++ device_path),
      probeSpawned := false }
  else
    match w.probe device_path with
    | .ok _ _ => { outcome := .ok, probeSpawned := true }
    | .calledProcessError rc err =>
        { outcome := .calledProcessError rc err, probeSpawned := true }
    | .timeoutExpired =>
        { outcome := .runtimeError ("Timeout while accessing device " ++ device_path),
          probeSpawned := true }
    | .exeNotFound =>
        { outcome := .runtimeError "v4l2-ctl not found. Please install v4l2-utils package",
          probeSpawned := true }

/-- cmd1 of capture_frame: set the video format. -/
def cmd1 (device : String) (width height : Nat) : List String :=
  ["v4l2-ctl", "--device", device,
   "--set-fmt-video=width=" ++ toString width ++ ",height=" ++ toString height
     ++ ",pixelformat=RGGB"]

/-- cmd2 of capture_frame: set the alpha_component control. In the source the
first two entries are adjacent string literals with no comma between them, so
Python concatenates them into the single element given here. -/
def cmd2 (device : String) : List String :=
  ["v4l2-ctl" ++ "--device", device, "-c", "alpha_component=128"]

/-- cmd3 of capture_frame: stream one frame to the temporary raw file. -/
def cmd3 (device temp_raw_path : String) : List String :=
  ["v4l2-ctl", "--device", device, "--stream-mmap",
   "--stream-to=" ++ temp_raw_path, "--stream-count=1"]

/-- Python str.startswith: the prefix character sequence is a prefix of the
character sequence of the string. -/
def str_startswith (s pre : String) : Bool := decide (pre.data <+: s.data)

/-- os.path.join restricted to the shapes this program uses. -/
def path_join (dir name : String) : String :=
  if str_startswith name "/" then name
  else if dir = "" then name
  else if str_endswith dir "/" then dir ++ name
  else dir ++ "/" ++ name

/-- cmd4 of capture_frame: convert the raw frame to the final image file. -/
def cmd4 (width height : Nat) (temp_raw_path final_path : String) : List String :=
  ["convert", "-size", toString width ++ "x" ++ toString height, "-depth", "8",
   "gray:" ++ temp_raw_path, final_path]

/-- cmd5 of capture_frame: show the result with weston-image. -/
def cmd5 (final_path : String) : List String :=
  ["weston-image", final_path]

/-- Observable result of one ImageCapture.capture_frame call: the returned
boolean, the command lines spawned in order, the final output path, whether
the convert step wrote the final file, the dimensions handed to convert when
it was spawned, whether the temporary raw file still exists afterwards, and
whether the cleanup block attempted the unlink. -/
structure CapResult where
  success : Bool
  spawned : List (List String)
  finalPath : String
  finalFileWritten : Bool
  convertSize : Option (Nat × Nat)
  tempExistsAfter : Bool
  unlinkAttempted : Bool
deriving DecidableEq, Repr

/-- ImageCapture.capture_frame: run cmd1 through cmd4 in order, returning
False on the first failure, then optionally run cmd5 with its result ignored.
The finally block always attempts os.unlink on the temporary path and swallows
OSError, so the file is gone afterwards exactly when unlink did not raise. -/
def capture_frame (w : World) (device : String) (width height : Nat)
    (output_dir filename : String) (show_results : Bool) : CapResult :=
  let temp := w.tempRawPath
  let final_path := path_join output_dir filename
  let c1 := cmd1 device width height
  if run_command (w.exec c1) = false then
    { success := false, spawned := [c1], finalPath := final_path,
      finalFileWritten := false, convertSize := none,
      tempExistsAfter := w.unlinkRaises, unlinkAttempted := true }
  else
    let c2 := cmd2 device
    if run_command (w.exec c2) = false then
      { success := false, spawned := [c1, c2], finalPath := final_path,
        finalFileWritten := false, convertSize := none,
        tempExistsAfter := w.unlinkRaises, unlinkAttempted := true }
    else
      let c3 := cmd3 device temp
      if run_command (w.exec c3) = false then
        { success := false, spawned := [c1, c2, c3], finalPath := final_path,
          finalFileWritten := false, convertSize := none,
          tempExistsAfter := w.unlinkRaises, unlinkAttempted := true }
      else
        let c4 := cmd4 width height temp final_path
        if run_command (w.exec c4) = false then
          { success := false, spawned := [c1, c2, c3, c4], finalPath := final_path,
            finalFileWritten := false, convertSize := some (width, height),
            tempExistsAfter := w.unlinkRaises, unlinkAttempted := true }
        else
          if show_results then
            { success := true, spawned := [c1, c2, c3, c4, cmd5 final_path],
              finalPath := final_path, finalFileWritten := true,
              convertSize := some (width, height),
              tempExistsAfter := w.unlinkRaises, unlinkAttempted := true }
          else
            { success := true, spawned := [c1, c2, c3, c4],
              finalPath := final_path, finalFileWritten := true,
              convertSize := some (width, height),
              tempExistsAfter := w.unlinkRaises, unlinkAttempted := true }

/-- Filename normalization in main: append .png unless the lowercased
filename already ends with it. -/
def normalize_filename (filename : String) : String :=
  if str_endswith (str_lower filename) ".png" then filename else filename ++ ".png"

/-- Parsed argparse namespace. size is None when the option was not given. -/
structure Args where
  device : String
  size : Option String
  filename : String
  output_dir : String
  show_results : Bool

/-- Observable result of one run of main after argument parsing: the process
exit status, every command line spawned in order, whether validate_device was
reached, whether capture_frame reported success, and the data of the final
file when the pipeline reached the convert step. -/
structure MainResult where
  exitCode : Nat
  spawned : List (List String)
  validateCalled : Bool
  captureSuccess : Bool
  finalPath : Option String
  finalFileWritten : Bool
  convertSize : Option (Nat × Nat)
deriving DecidableEq, Repr

/-- main after argument parsing: resolve the size, validate the device,
normalize the filename, run capture_frame, and exit with status 0 on success
and 1 otherwise. An uncaught exception (AttributeError when size is None,
ValueError from get_resolution, any exception out of validate_device) makes
the interpreter exit with status 1. -/
def main_run (w : World) (a : Args) : MainResult :=
  match a.size with
  | none =>
      { exitCode := 1, spawned := [], validateCalled := false, captureSuccess := false,
        finalPath := none, finalFileWritten := false, convertSize := none }
  | some s =>
    match get_resolution s with
    | .error _ =>
        { exitCode := 1, spawned := [], validateCalled := false, captureSuccess := false,
          finalPath := none, finalFileWritten := false, convertSize := none }
    | .ok (width, height) =>
      let v := validate_device w a.device
      match v.outcome with
      | .ok =>
          let filename := normalize_filename a.filename
          let r := capture_frame w a.device width height a.output_dir filename
            a.show_results
          { exitCode := if r.success then 0 else 1,
            spawned := probe_cmd a.device :: r.spawned,
            validateCalled := true, captureSuccess := r.success,
            finalPath := some r.finalPath,
            finalFileWritten := r.finalFileWritten, convertSize := r.convertSize }
      | _ =>
          { exitCode := 1,
            spawned := if v.probeSpawned then [probe_cmd a.device] else [],
            validateCalled := true, captureSuccess := false,
            finalPath := none, finalFileWritten := false, convertSize := none }

end CanopusImgCap

namespace CanopusImgCap

/-! Helper lemmas shared by several developments below. -/

lemma data_str_lower (s : String) : (str_lower s).data = s.data.map Char.toLower := rfl

lemma cmd3_length (d t : String) : (cmd3 d t).length = 6 := rfl

lemma cmd1_length (d : String) (w h : Nat) : (cmd1 d w h).length = 4 := rfl

lemma cmd2_length (d : String) : (cmd2 d).length = 4 := rfl

lemma cmd3_ne_cmd1 (d t d2 : String) (w h : Nat) : cmd3 d t ≠ cmd1 d2 w h := by
  intro he
  have := congrArg List.length he
  rw [cmd3_length, cmd1_length] at this
  exact absurd this (by decide)

lemma cmd3_ne_cmd2 (d t d2 : String) : cmd3 d t ≠ cmd2 d2 := by
  intro he
  have := congrArg List.length he
  rw [cmd3_length, cmd2_length] at this
  exact absurd this (by decide)

/-- C4: the Size Resolver maps preset names case-insensitively, small to
640x480 and large to 1920x1080, fails for every other string with the
ValueError message that lists the valid preset names, and accepts no numeric
WxH string such as 640x480. -/
theorem get_resolution_presets (s : String) :
    get_resolution s =
      (if str_lower s = "small" then Except.ok (640, 480)
       else if str_lower s = "large" then Except.ok (1920, 1080)
       else Except.error invalid_size_message)
    ∧ str_contains invalid_size_message "small" = true
    ∧ str_contains invalid_size_message "large" = true
    ∧ get_resolution "640x480" = Except.error invalid_size_message
    ∧ get_resolution "LARGE" = Except.ok (1920, 1080) := by
  refine ⟨?_, rfl, rfl, rfl, rfl⟩
  by_cases h1 : str_lower s = "small"
  · simp [get_resolution, size_map, List.lookup, h1]
  · by_cases h2 : str_lower s = "large"
    · simp [get_resolution, size_map, List.lookup, h1, h2]
    · have hb1 : (str_lower s == "small") = false := beq_eq_false_iff_ne.mpr h1
      have hb2 : (str_lower s == "large") = false := beq_eq_false_iff_ne.mpr h2
      simp [get_resolution, size_map, List.lookup, hb1, hb2, h1, h2]

/-- C7: a filename whose lowercase form does not end in .png gets exactly one
.png appended, after which it ends in .png and not in .png.png even
case-insensitively; a filename already ending in .png in any letter case is
passed through unchanged. -/
theorem normalize_filename_png (f : String) :
    (str_endswith (str_lower f) ".png" = false →
        normalize_filename f = f ++ ".png"
        ∧ str_endswith (normalize_filename f) ".png" = true
        ∧ str_endswith (str_lower (normalize_filename f)) ".png" = true
        ∧ str_endswith (str_lower (normalize_filename f)) ".png.png" = false)
    ∧ (str_endswith (str_lower f) ".png" = true → normalize_filename f = f) := by
  have hmap : ".png".data.map Char.toLower = ".png".data := by decide
  constructor
  · intro h
    have hsuf : ¬ (".png".data <:+ (str_lower f).data) := by
      simpa [str_endswith] using h
    have hn : normalize_filename f = f ++ ".png" := by
      simp [normalize_filename, h]
    have hdata : (str_lower (f ++ ".png")).data = (str_lower f).data ++ ".png".data := by
      simp [str_lower, String.data_append, List.map_append, hmap]
    refine ⟨hn, ?_, ?_, ?_⟩
    · rw [hn]
      exact decide_eq_true (by rw [String.data_append]; exact List.suffix_append _ _)
    · rw [hn]
      unfold str_endswith
      rw [hdata]
      exact decide_eq_true (List.suffix_append _ _)
    · rw [hn]
      unfold str_endswith
      rw [hdata]
      apply decide_eq_false
      intro hcon
      have hq : ".png.png".data = ".png".data ++ ".png".data := by decide
      rw [hq] at hcon
      obtain ⟨t, ht⟩ := hcon
      rw [← List.append_assoc] at ht
      exact hsuf ⟨t, List.append_cancel_right ht⟩
  · intro h
    simp [normalize_filename, h]

/-- Witness for normalize_filename_png at two concrete filenames. -/
theorem normalize_filename_png_witness :
    normalize_filename "photo" = "photo.png" ∧ normalize_filename "IMG.PNG" = "IMG.PNG" :=
  ⟨((normalize_filename_png "photo").1 (by decide)).1,
   (normalize_filename_png "IMG.PNG").2 (by decide)⟩

end CanopusImgCap

namespace CanopusImgCap

/-! Concrete environments used by the witnesses. -/

/-- Environment where the device exists and is readable and every spawned
process succeeds. -/
def wAllOk : World :=
  { exec := fun _ => SpawnOutcome.ok "" "", probe := fun _ => ProbeOutcome.ok "" "",
    path_exists := fun _ => true, access_R_OK := fun _ => true,
    tempRawPath := "/tmp/tmp1.raw", unlinkRaises := false }

/-- Environment where no device path exists. -/
def wNoDev : World := { wAllOk with path_exists := fun _ => false }

/-- Environment where every device path exists but none is readable. -/
def wNoRead : World := { wAllOk with access_R_OK := fun _ => false }

/-- Environment where exactly the streaming command for /dev/video0 fails. -/
def wStreamFail : World :=
  { wAllOk with
    exec := fun c =>
      if c = cmd3 "/dev/video0" "/tmp/tmp1.raw" then SpawnOutcome.calledProcessError 1 "fail"
      else SpawnOutcome.ok "" "" }

/-- Parsed arguments for the device-not-found and permission scenarios. -/
def argsV9 : Args :=
  { device := "/dev/video9", size := some "small", filename := "frame.png",
    output_dir := ".", show_results := false }

/-- C5: a device path that does not exist makes validate_device raise
FileNotFoundError without spawning the probe process, and main exits with
status 1 having spawned nothing; a path that exists but is not readable makes
it raise PermissionError, again without spawning anything. -/
theorem validate_device_prevalidation (w : World) (a : Args) (s : String) (wd ht : Nat)
    (hs : a.size = some s) (hok : get_resolution s = Except.ok (wd, ht)) :
    (w.path_exists a.device = false →
        (validate_device w a.device).outcome
            = ValidateOutcome.fileNotFoundError ("Video device " ++ a.device ++ " not found")
        ∧ (validate_device w a.device).probeSpawned = false
        ∧ main_run w a =
            { exitCode := 1, spawned := [], validateCalled := true, captureSuccess := false,
              finalPath := none, finalFileWritten := false, convertSize := none })
    ∧ (w.path_exists a.device = true → w.access_R_OK a.device = false →
        (validate_device w a.device).outcome
            = ValidateOutcome.permissionError ("No read permission for device " ++ a.device)
        ∧ (validate_device w a.device).probeSpawned = false
        ∧ main_run w a =
            { exitCode := 1, spawned := [], validateCalled := true, captureSuccess := false,
              finalPath := none, finalFileWritten := false, convertSize := none }) := by
  constructor
  · intro h
    have hv : validate_device w a.device =
        { outcome := ValidateOutcome.fileNotFoundError
            ("Video device " ++ a.device ++ " not found"), probeSpawned := false } := by
      simp [validate_device, h]
    exact ⟨by rw [hv], by rw [hv], by simp [main_run, hs, hok, hv]⟩
  · intro h1 h2
    have hv : validate_device w a.device =
        { outcome := ValidateOutcome.permissionError
            ("No read permission for device " ++ a.device), probeSpawned := false } := by
      simp [validate_device, h1, h2]
    exact ⟨by rw [hv], by rw [hv], by simp [main_run, hs, hok, hv]⟩

/-- Witness for validate_device_prevalidation in the two concrete
environments. -/
theorem validate_device_prevalidation_witness :
    ((validate_device wNoDev "/dev/video9").probeSpawned = false
      ∧ main_run wNoDev argsV9 =
          { exitCode := 1, spawned := [], validateCalled := true, captureSuccess := false,
            finalPath := none, finalFileWritten := false, convertSize := none })
    ∧ (validate_device wNoRead "/dev/video9").probeSpawned = false :=
  ⟨⟨((validate_device_prevalidation wNoDev argsV9 "small" 640 480 rfl rfl).1 rfl).2.1,
    ((validate_device_prevalidation wNoDev argsV9 "small" 640 480 rfl rfl).1 rfl).2.2⟩,
   ((validate_device_prevalidation wNoRead argsV9 "small" 640 480 rfl rfl).2 rfl rfl).2.1⟩

/-- C1: when cmd1 and cmd2 succeed but the streaming step cmd3 fails,
capture_frame returns False having spawned exactly cmd1, cmd2 and cmd3 once
each and in order, the convert and display utilities are never invoked, no
final file is written, and the temporary raw file is gone afterwards. -/
theorem capture_frame_stream_failure (w : World) (device : String) (width height : Nat)
    (odir fname : String) (show_results : Bool)
    (h1 : run_command (w.exec (cmd1 device width height)) = true)
    (h2 : run_command (w.exec (cmd2 device)) = true)
    (h3 : run_command (w.exec (cmd3 device w.tempRawPath)) = false)
    (h4 : w.unlinkRaises = false) :
    (capture_frame w device width height odir fname show_results).success = false
    ∧ (capture_frame w device width height odir fname show_results).spawned
        = [cmd1 device width height, cmd2 device, cmd3 device w.tempRawPath]
    ∧ (capture_frame w device width height odir fname show_results).finalFileWritten = false
    ∧ (capture_frame w device width height odir fname show_results).convertSize = none
    ∧ (capture_frame w device width height odir fname show_results).tempExistsAfter = false
    ∧ (capture_frame w device width height odir fname show_results).spawned.count
        (cmd3 device w.tempRawPath) = 1
    ∧ ∀ c ∈ (capture_frame w device width height odir fname show_results).spawned,
        c.head? ≠ some "convert" ∧ c.head? ≠ some "weston-image" := by
  have hc : capture_frame w device width height odir fname show_results =
      { success := false,
        spawned := [cmd1 device width height, cmd2 device, cmd3 device w.tempRawPath],
        finalPath := path_join odir fname, finalFileWritten := false, convertSize := none,
        tempExistsAfter := w.unlinkRaises, unlinkAttempted := true } := by
    simp [capture_frame, h1, h2, h3]
  have e1 : cmd3 device w.tempRawPath ≠ cmd1 device width height :=
    cmd3_ne_cmd1 device w.tempRawPath device width height
  have e2 : cmd3 device w.tempRawPath ≠ cmd2 device :=
    cmd3_ne_cmd2 device w.tempRawPath device
  rw [hc]
  refine ⟨rfl, rfl, rfl, rfl, by rw [h4], ?_, ?_⟩
  · simp [List.count_cons, e1, e2]
  · intro c hm
    simp only [List.mem_cons, List.not_mem_nil, or_false] at hm
    rcases hm with rfl | rfl | rfl
    · exact ⟨by simp [cmd1], by simp [cmd1]⟩
    · exact ⟨by simp [cmd2], by simp [cmd2]⟩
    · exact ⟨by simp [cmd3], by simp [cmd3]⟩

/-- Witness for capture_frame_stream_failure in the concrete environment where
only the streaming command fails. -/
theorem capture_frame_stream_failure_witness :
    (capture_frame wStreamFail "/dev/video0" 640 480 "." "frame.png" false).success = false
    ∧ (capture_frame wStreamFail "/dev/video0" 640 480 "." "frame.png" false).tempExistsAfter
        = false :=
  ⟨(capture_frame_stream_failure wStreamFail "/dev/video0" 640 480 "." "frame.png" false
      rfl rfl rfl rfl).1,
   (capture_frame_stream_failure wStreamFail "/dev/video0" 640 480 "." "frame.png" false
      rfl rfl rfl rfl).2.2.2.2.1⟩

/-- C2: on every exit path of capture_frame the finally block attempts the
unlink of the temporary raw file, the file is gone afterwards whenever the
unlink does not raise, and a raising unlink changes neither the returned
boolean nor the commands spawned. -/
theorem capture_frame_cleanup (w : World) (device : String) (width height : Nat)
    (odir fname : String) (show_results : Bool) :
    (capture_frame w device width height odir fname show_results).unlinkAttempted = true
    ∧ (w.unlinkRaises = false →
        (capture_frame w device width height odir fname show_results).tempExistsAfter = false)
    ∧ (capture_frame { w with unlinkRaises := true } device width height odir fname
          show_results).success
        = (capture_frame { w with unlinkRaises := false } device width height odir fname
            show_results).success
    ∧ (capture_frame { w with unlinkRaises := true } device width height odir fname
          show_results).spawned
        = (capture_frame { w with unlinkRaises := false } device width height odir fname
            show_results).spawned := by
  refine ⟨?_, ?_, ?_, ?_⟩
  · simp only [capture_frame]
    split_ifs <;> rfl
  · intro h
    simp only [capture_frame]
    split_ifs <;> simpa using h
  · simp only [capture_frame]
    split_ifs <;> rfl
  · simp only [capture_frame]
    split_ifs <;> rfl

/-- Witness for capture_frame_cleanup in the all-succeeding environment. -/
theorem capture_frame_cleanup_witness :
    (capture_frame wAllOk "/dev/video0" 640 480 "." "frame.png" true).unlinkAttempted = true
    ∧ (capture_frame wAllOk "/dev/video0" 640 480 "." "frame.png" true).tempExistsAfter
        = false :=
  ⟨(capture_frame_cleanup wAllOk "/dev/video0" 640 480 "." "frame.png" true).1,
   (capture_frame_cleanup wAllOk "/dev/video0" 640 480 "." "frame.png" true).2.1 rfl⟩

end CanopusImgCap

namespace CanopusImgCap

/-- Environment in which every executable is missing. -/
def wFail1 : World := { wAllOk with exec := fun _ => SpawnOutcome.exeNotFound }

/-- Environment in which exactly the misnamed cmd2 executable is missing. -/
def wC9 : World :=
  { wAllOk with
    exec := fun c =>
      if c = cmd2 "/dev/video0" then SpawnOutcome.exeNotFound else SpawnOutcome.ok "" "" }

/-- Environment where only the weston-image display command fails. -/
def wDispFail : World :=
  { wAllOk with
    exec := fun c =>
      if c.head? = some "weston-image" then SpawnOutcome.calledProcessError 1 "no display"
      else SpawnOutcome.ok "" "" }

/-- Arguments of the display scenario. -/
def argsShow : Args :=
  { device := "/dev/video2", size := some "large", filename := "frame.png",
    output_dir := ".", show_results := true }

/-- Arguments of the large-preset default-filename scenario. -/
def argsLarge : Args :=
  { device := "/dev/video2", size := some "large", filename := "frame.png",
    output_dir := ".", show_results := false }

/-- Arguments with an unrecognized size preset. -/
def argsBogus : Args :=
  { device := "/dev/video2", size := some "bogus", filename := "frame.png",
    output_dir := ".", show_results := false }

/-- C10: run_command returns True exactly on a zero exit and returns False
both on a non-zero exit and on a missing executable, never raising; a failing
first step therefore surfaces as an ordinary False return of capture_frame,
with the cleanup block still run. -/
theorem run_command_total (o : SpawnOutcome) (w : World) (device : String)
    (width height : Nat) (odir fname : String) (show_results : Bool)
    (h : run_command (w.exec (cmd1 device width height)) = false) :
    (run_command o = true ↔ ∃ out err, o = SpawnOutcome.ok out err)
    ∧ (capture_frame w device width height odir fname show_results).success = false
    ∧ (capture_frame w device width height odir fname show_results).spawned
        = [cmd1 device width height]
    ∧ (capture_frame w device width height odir fname show_results).unlinkAttempted = true := by
  refine ⟨?_, ?_, ?_, ?_⟩
  · cases o <;> simp [run_command]
  · simp [capture_frame, h]
  · simp [capture_frame, h]
  · simp [capture_frame, h]

/-- Witness for run_command_total in the environment with no executables. -/
theorem run_command_total_witness :
    (capture_frame wFail1 "/dev/video0" 640 480 "." "frame.png" false).success = false
    ∧ (capture_frame wFail1 "/dev/video0" 640 480 "." "frame.png" false).unlinkAttempted
        = true :=
  ⟨(run_command_total SpawnOutcome.exeNotFound wFail1 "/dev/video0" 640 480 "." "frame.png"
      false rfl).2.1,
   (run_command_total SpawnOutcome.exeNotFound wFail1 "/dev/video0" 640 480 "." "frame.png"
      false rfl).2.2.2⟩

/-- C9: the first element of cmd2 is the single concatenated string
v4l2-ctl--device, unlike the v4l2-ctl executable name used by cmd1, cmd3 and
the probe; in an environment whose exec oracle reports that executable as
missing, capture_frame fails before the streaming step is ever spawned. -/
theorem cmd2_concatenated_name (w : World) (device : String) (width height : Nat)
    (odir fname : String) (show_results : Bool)
    (hnf : w.exec (cmd2 device) = SpawnOutcome.exeNotFound) :
    (cmd2 device).head? = some "v4l2-ctl--device"
    ∧ "v4l2-ctl--device" ≠ "v4l2-ctl"
    ∧ (cmd1 device width height).head? = some "v4l2-ctl"
    ∧ (cmd3 device w.tempRawPath).head? = some "v4l2-ctl"
    ∧ (probe_cmd device).head? = some "v4l2-ctl"
    ∧ (capture_frame w device width height odir fname show_results).success = false
    ∧ cmd3 device w.tempRawPath ∉
        (capture_frame w device width height odir fname show_results).spawned := by
  have h2 : run_command (w.exec (cmd2 device)) = false := by rw [hnf]; rfl
  have e1 : cmd3 device w.tempRawPath ≠ cmd1 device width height :=
    cmd3_ne_cmd1 device w.tempRawPath device width height
  have e2 : cmd3 device w.tempRawPath ≠ cmd2 device :=
    cmd3_ne_cmd2 device w.tempRawPath device
  refine ⟨rfl, by decide, rfl, rfl, rfl, ?_, ?_⟩
  · cases hb : run_command (w.exec (cmd1 device width height))
    · simp [capture_frame, hb]
    · simp [capture_frame, hb, h2]
  · cases hb : run_command (w.exec (cmd1 device width height))
    · simp [capture_frame, hb, e1]
    · simp [capture_frame, hb, h2, e1, e2]

/-- Witness for cmd2_concatenated_name in the environment missing exactly the
concatenated executable name. -/
theorem cmd2_concatenated_name_witness :
    (capture_frame wC9 "/dev/video0" 640 480 "." "frame.png" false).success = false
    ∧ cmd3 "/dev/video0" wC9.tempRawPath ∉
        (capture_frame wC9 "/dev/video0" 640 480 "." "frame.png" false).spawned :=
  ⟨(cmd2_concatenated_name wC9 "/dev/video0" 640 480 "." "frame.png" false rfl).2.2.2.2.2.1,
   (cmd2_concatenated_name wC9 "/dev/video0" 640 480 "." "frame.png" false rfl).2.2.2.2.2.2⟩

/-- C6: when the whole pipeline through the convert step succeeds and the
display flag is set, a failing display command does not change the outcome:
main still exits with status 0 and the final file was written. -/
theorem display_failure_nonfatal (w : World) (a : Args) (s : String) (width height : Nat)
    (hs : a.size = some s)
    (hres : get_resolution s = Except.ok (width, height))
    (hval : (validate_device w a.device).outcome = ValidateOutcome.ok)
    (hshow : a.show_results = true)
    (h1 : run_command (w.exec (cmd1 a.device width height)) = true)
    (h2 : run_command (w.exec (cmd2 a.device)) = true)
    (h3 : run_command (w.exec (cmd3 a.device w.tempRawPath)) = true)
    (h4 : run_command (w.exec (cmd4 width height w.tempRawPath
            (path_join a.output_dir (normalize_filename a.filename)))) = true)
    (_h5 : run_command (w.exec (cmd5
            (path_join a.output_dir (normalize_filename a.filename)))) = false) :
    (main_run w a).exitCode = 0
    ∧ (main_run w a).captureSuccess = true
    ∧ (main_run w a).finalFileWritten = true
    ∧ (main_run w a).finalPath
        = some (path_join a.output_dir (normalize_filename a.filename)) := by
  have hcap : capture_frame w a.device width height a.output_dir
      (normalize_filename a.filename) a.show_results =
      { success := true,
        spawned := [cmd1 a.device width height, cmd2 a.device,
          cmd3 a.device w.tempRawPath,
          cmd4 width height w.tempRawPath
            (path_join a.output_dir (normalize_filename a.filename)),
          cmd5 (path_join a.output_dir (normalize_filename a.filename))],
        finalPath := path_join a.output_dir (normalize_filename a.filename),
        finalFileWritten := true, convertSize := some (width, height),
        tempExistsAfter := w.unlinkRaises, unlinkAttempted := true } := by
    simp [capture_frame, h1, h2, h3, h4, hshow]
  refine ⟨?_, ?_, ?_, ?_⟩ <;> simp [main_run, hs, hres, hval, hcap]

/-- Witness for display_failure_nonfatal in the environment where only the
display command fails. -/
theorem display_failure_nonfatal_witness :
    (main_run wDispFail argsShow).exitCode = 0
    ∧ (main_run wDispFail argsShow).finalFileWritten = true :=
  ⟨(display_failure_nonfatal wDispFail argsShow "large" 1920 1080 rfl rfl rfl rfl
      rfl rfl rfl rfl rfl).1,
   (display_failure_nonfatal wDispFail argsShow "large" 1920 1080 rfl rfl rfl rfl
      rfl rfl rfl rfl rfl).2.2.1⟩

end CanopusImgCap

namespace CanopusImgCap

/-- Every run of main exits with status 0 or 1, and status 0 happens exactly
when capture_frame reported success. -/
lemma main_run_exit_codes (w2 : World) (a2 : Args) :
    ((main_run w2 a2).exitCode = 0 ∨ (main_run w2 a2).exitCode = 1)
    ∧ ((main_run w2 a2).exitCode = 0 ↔ (main_run w2 a2).captureSuccess = true) := by
  cases ha : a2.size with
  | none => simp [main_run, ha]
  | some s2 =>
    cases hr : get_resolution s2 with
    | error e => simp [main_run, ha, hr]
    | ok wh =>
      obtain ⟨wd, ht⟩ := wh
      cases ho : (validate_device w2 a2.device).outcome <;>
        simp [main_run, ha, hr, ho]

/-- C3: with the large preset, the default filename and output directory, a
device that validates, and every spawned command succeeding, main exits with
status 0 and the convert step wrote the final file ./frame.png at dimensions
1920x1080; in general the exit status is 0 on success and 1 on any failure. -/
theorem scenario_large_default (w : World) (a : Args)
    (hs : a.size = some "large")
    (hfile : a.filename = "frame.png")
    (hdir : a.output_dir = ".")
    (hval : (validate_device w a.device).outcome = ValidateOutcome.ok)
    (hall : ∀ c, run_command (w.exec c) = true) :
    (main_run w a).exitCode = 0
    ∧ (main_run w a).captureSuccess = true
    ∧ (main_run w a).finalPath = some "./frame.png"
    ∧ (main_run w a).finalFileWritten = true
    ∧ (main_run w a).convertSize = some (1920, 1080)
    ∧ (∀ w2 a2, (main_run w2 a2).exitCode = 0 ∨ (main_run w2 a2).exitCode = 1)
    ∧ (∀ w2 a2, ((main_run w2 a2).exitCode = 0 ↔ (main_run w2 a2).captureSuccess = true)) := by
  have hres : get_resolution "large" = Except.ok (1920, 1080) := rfl
  have hnorm : normalize_filename "frame.png" = "frame.png" := rfl
  have hpath : path_join "." "frame.png" = "./frame.png" := rfl
  refine ⟨?_, ?_, ?_, ?_, ?_, fun w2 a2 => (main_run_exit_codes w2 a2).1,
    fun w2 a2 => (main_run_exit_codes w2 a2).2⟩ <;>
  cases hsr : a.show_results <;>
    simp [main_run, capture_frame, hs, hfile, hdir, hval, hall, hres, hnorm, hpath, hsr]

/-- Witness for scenario_large_default in the all-succeeding environment. -/
theorem scenario_large_default_witness :
    (main_run wAllOk argsLarge).exitCode = 0
    ∧ (main_run wAllOk argsLarge).finalPath = some "./frame.png"
    ∧ (main_run wAllOk argsLarge).convertSize = some (1920, 1080) :=
  ⟨(scenario_large_default wAllOk argsLarge rfl rfl rfl rfl (fun _ => rfl)).1,
   (scenario_large_default wAllOk argsLarge rfl rfl rfl rfl (fun _ => rfl)).2.2.1,
   (scenario_large_default wAllOk argsLarge rfl rfl rfl rfl (fun _ => rfl)).2.2.2.2.1⟩

/-- C8: with an unrecognized size preset, main exits with status 1 before
validate_device is reached and before any process is spawned. -/
theorem invalid_size_aborts (w : World) (a : Args) (s : String)
    (hs : a.size = some s)
    (hbad : get_resolution s = Except.error invalid_size_message) :
    main_run w a =
      { exitCode := 1, spawned := [], validateCalled := false, captureSuccess := false,
        finalPath := none, finalFileWritten := false, convertSize := none } := by
  simp [main_run, hs, hbad]

/-- Witness for invalid_size_aborts at size bogus. -/
theorem invalid_size_aborts_witness :
    main_run wAllOk argsBogus =
      { exitCode := 1, spawned := [], validateCalled := false, captureSuccess := false,
        finalPath := none, finalFileWritten := false, convertSize := none } :=
  invalid_size_aborts wAllOk argsBogus "bogus" rfl rfl

end CanopusImgCap
